import Mathlib

/-
Verification development for the kafkaclient repository.

The repository has three source units: a generation-based consumer built on
kafka-go (kafkagoConsumer: startConsume, consumeTopic, commitOffset), a
session-based consumer built on sarama (saramaConsumer: startConsume,
ConsumeClaim, Setup, Cleanup), and a producer (saramaProducer:
newSaramaProducer, produceMessage, handleAsyncResponses, getSaramaEncoder).

The shallow embedding below translates those functions into pure Lean
functions.  External broker and channel effects are passed in explicitly
(the result of a read, the result of a commit attempt, whether the
failed-message channel can accept a value immediately) and the observable
effects of a call (commit calls issued, channel operations performed,
messages handed to the broker, log-relevant control outcomes) are returned
as data.  Go map lookups return the zero value of the element type when the
key is absent, which the embedding reproduces.
-/

set_option autoImplicit false

namespace Kafkaclient

/-- A Go error value, modelled by its message.  The error constructors used by
the source (errTopicConfMissing, errMessageType, errInvalidProducer,
errCodecNil) are declared in a repository file that is not under src; only
their identity matters to the claims. -/
structure GoErr where
  msg : String
deriving DecidableEq

/-- Modelled from the spec: error for a topic with no populated TopicConfig at
runtime (source symbol errTopicConfMissing, declared outside src). -/
def errTopicConfMissing : GoErr := ⟨"topic config missing"⟩

/-- Modelled from the spec: the unsupported message type error returned by the
default branch of getSaramaEncoder (source symbol errMessageType, declared
outside src). -/
def errMessageType : GoErr := ⟨"unsupported message type"⟩

/-- Modelled from the spec: error for a producer value that is neither a sync
nor an async sarama producer (source symbol errInvalidProducer, declared
outside src). -/
def errInvalidProducer : GoErr := ⟨"invalid producer"⟩

/-- Modelled from the spec: the message codec is an external per-topic
capability.  The code under src only compares a codec with nil and passes it
to the byte and struct encoder constructors, so a codec is modelled by an
identity. -/
structure Codec where
  cid : Nat
deriving DecidableEq

/-- A raw broker record: kafka.Message of kafka-go and sarama.ConsumerMessage
both carry topic, partition, offset, key and value. -/
structure KMessage where
  topic : String
  partition : Int
  offset : Int
  key : List Nat
  value : List Nat
deriving DecidableEq

/-- Modelled from the spec: the domain Message built once per received record
(newKafkaGoMessage and newSaramaMessage are declared outside src); it pairs
the raw record with the codec used for lazy decoding. -/
structure ConsumerMessage where
  raw : KMessage
  codec : Option Codec
deriving DecidableEq

/-- newKafkaGoMessage msg conf.messageCodec, as called at line 124 of the
kafka-go consumer. -/
def newKafkaGoMessage (m : KMessage) (codec : Option Codec) : ConsumerMessage :=
  ⟨m, codec⟩

/-- newSaramaMessage msg conf.messageCodec, as called at line 314 of the
sarama consumer. -/
def newSaramaMessage (m : KMessage) (codec : Option Codec) : ConsumerMessage :=
  ⟨m, codec⟩

/-- Modelled from the spec: FailedMessage is the original message, the
destination (dead-letter) topic, and the causal error (newFailedMessage is
declared outside src). -/
structure FailedMessage where
  m : ConsumerMessage
  topic : String
  e : GoErr
deriving DecidableEq

/-- newFailedMessage m conf.FailedProcessingTopic e, as called by both
consumer backends. -/
def newFailedMessage (m : ConsumerMessage) (topic : String) (e : GoErr) :
    FailedMessage :=
  ⟨m, topic, e⟩

/-- TopicConfig, restricted to the fields the code under src reads: Name,
messageCodec, MessageProcessor and FailedProcessingTopic.  A nil Go function
or codec is modelled by none.  The processor keeps only the message argument;
context and dependency bundle are passed through unchanged by the source and
do not influence any claim. -/
structure TopicConfig where
  Name : String
  messageCodec : Option Codec
  MessageProcessor : Option (ConsumerMessage → Option GoErr)
  FailedProcessingTopic : String

/-- The zero value of TopicConfig, produced by a Go map lookup on an absent
key: empty Name, nil codec, nil processor, empty failed-processing topic. -/
def zeroTopicConfig : TopicConfig :=
  ⟨"", none, none, ""⟩

/-- Go map indexing m[t] for the topic configuration registry: the stored
value when present, the zero value otherwise. -/
def lookupTopicConfig (m : List (String × TopicConfig)) (t : String) :
    TopicConfig :=
  match m.find? (fun p => p.1 == t) with
  | some p => p.2
  | none => zeroTopicConfig

/-- An operation on the shared failed-message channel.  A select with a
default branch is a trySend (non-blocking; accepted records whether the
channel could take the value immediately); a plain channel send would be a
blockSend.  The source only ever emits trySend. -/
inductive ChanOp where
  | trySend (fm : FailedMessage) (accepted : Bool)
  | blockSend (fm : FailedMessage)
deriving DecidableEq

/-- The failed messages that actually reach the router: trySend operations
whose immediate hand-off was accepted. -/
def deliveredMessages (ops : List ChanOp) : List FailedMessage :=
  ops.filterMap (fun op =>
    match op with
    | .trySend fm true => some fm
    | _ => none)

/-- Whether any operation in the list is a blocking channel send. -/
def hasBlockingSend (ops : List ChanOp) : Bool :=
  ops.any (fun op =>
    match op with
    | .blockSend _ => true
    | _ => false)

/-- Control outcome of one loop iteration: the loop continues with the next
message, or the goroutine panics (a nil Go function value was called). -/
inductive StepOutcome where
  | continued
  | panicked
deriving DecidableEq

/-- Observable effects of one iteration of the kafka-go partition message
loop: control outcome, failed-message channel operations, offsets passed to
reader.SetOffset, the (topic, partition, offset) triples passed to
commitOffset in order, and the message handed to the processor if the
invocation happened. -/
structure KafkagoStepEffects where
  outcome : StepOutcome
  chanOps : List ChanOp
  setOffsetCalls : List Int
  commits : List (String × Int × Int)
  processedMsg : Option ConsumerMessage
deriving DecidableEq

/-- One iteration of the read loop inside consumeTopic (kafka-go consumer,
lines 116 to 151), after ReadMessage has returned the record msg.  The local
offset variable is set to msg.Offset.  The message is built with the codec of
the config and handed to conf.MessageProcessor (a nil processor makes the
call panic).  On a processor error: if FailedProcessingTopic is non-empty a
select with default performs one non-blocking send of the FailedMessage;
reader.SetOffset(offset) is called; commitOffset(topic, partition, offset-1)
is called; and, because the failure branch does not continue the loop,
control falls through to the unconditional commitOffset(topic, partition,
offset) that the source comments as the successful-processing commit.  On
success only that final commit runs. -/
def consumeTopicStep (conf : TopicConfig) (topic : String) (partition : Int)
    (msg : KMessage) (chanAccepts : Bool) : KafkagoStepEffects :=
  let offset := msg.offset
  let m := newKafkaGoMessage msg conf.messageCodec
  match conf.MessageProcessor with
  | none =>
    { outcome := .panicked
      chanOps := []
      setOffsetCalls := []
      commits := []
      processedMsg := none }
  | some proc =>
    match proc m with
    | some err =>
      let ops :=
        if conf.FailedProcessingTopic ≠ "" then
          [ChanOp.trySend (newFailedMessage m conf.FailedProcessingTopic err)
            chanAccepts]
        else []
      { outcome := .continued
        chanOps := ops
        setOffsetCalls := [offset]
        commits := [(topic, partition, offset - 1), (topic, partition, offset)]
        processedMsg := some m }
    | none =>
      { outcome := .continued
        chanOps := []
        setOffsetCalls := []
        commits := [(topic, partition, offset)]
        processedMsg := some m }

/-- How a commitOffset invocation ends: it returns normally, or it would halt
the calling loop (the source never halts: both failure branches only log). -/
inductive CommitOutcome where
  | returnedNormally
  | halted
deriving DecidableEq

/-- commitOffset of the kafka-go consumer (lines 156 to 173).  attemptResult
k is the outcome the broker gives the k-th CommitOffsets call of this
invocation (none = success).  The function returns how many attempts were
made and how the call ends.  The source tries once, retries exactly once if
the first attempt failed, logs a second failure, and always returns. -/
def commitOffset (attemptResult : Nat → Option GoErr) : Nat × CommitOutcome :=
  match attemptResult 0 with
  | none => (1, .returnedNormally)
  | some _ =>
    match attemptResult 1 with
    | none => (2, .returnedNormally)
    | some _ => (2, .returnedNormally)

/-- Observable effects of handling one claimed message in ConsumeClaim
(sarama consumer): control outcome, the error variable after the iteration,
whether session.MarkMessage acknowledged the message, channel operations, and
the message handed to the processor if the invocation happened. -/
structure ClaimStepEffects where
  control : StepOutcome
  e : Option GoErr
  marked : Bool
  chanOps : List ChanOp
  processedMsg : Option ConsumerMessage
deriving DecidableEq

/-- One message-received iteration of ConsumeClaim (sarama consumer, lines
303 to 341).  The config is looked up by topic; if its Name is empty or its
codec nil, the error is errTopicConfMissing and the loop continues without
building or processing the message.  Otherwise the message is built and the
processor invoked (nil processor panics).  On a processor error: optional
non-blocking dead-letter forward, then continue without marking.  On success
session.MarkMessage acknowledges the message. -/
def ConsumeClaimStep (topicConf : String → TopicConfig) (msg : KMessage)
    (chanAccepts : Bool) : ClaimStepEffects :=
  let conf := topicConf msg.topic
  if conf.Name = "" ∨ conf.messageCodec = none then
    { control := .continued
      e := some errTopicConfMissing
      marked := false
      chanOps := []
      processedMsg := none }
  else
    let m := newSaramaMessage msg conf.messageCodec
    match conf.MessageProcessor with
    | none =>
      { control := .panicked
        e := none
        marked := false
        chanOps := []
        processedMsg := none }
    | some proc =>
      match proc m with
      | some err =>
        let ops :=
          if conf.FailedProcessingTopic ≠ "" then
            [ChanOp.trySend (newFailedMessage m conf.FailedProcessingTopic err)
              chanAccepts]
          else []
        { control := .continued
          e := some err
          marked := false
          chanOps := ops
          processedMsg := some m }
      | none =>
        { control := .continued
          e := none
          marked := true
          chanOps := []
          processedMsg := some m }

/-- A Go value handed to the producer, by dynamic shape as inspected by the
type switch of getSaramaEncoder.  Go float values are modelled by their fmt
package rendering, the only observation the source makes of them; struct and
function values are modelled by an identity, since the source forwards or
rejects them whole. -/
inductive GoValue where
  | str (s : String)
  | bytes (b : List Nat)
  | int32V (n : Int)
  | int64V (n : Int)
  | float32V (goRepr : String)
  | float64V (goRepr : String)
  | structV (sid : String)
  | funcV (fid : String)
  | otherV (kindName : String)
deriving DecidableEq

/-- fmt.Sprint on the values the source applies it to: Go renders int32 and
int64 in decimal, which toString on Int reproduces; floats are modelled by
their rendering (see GoValue). -/
def goSprint : GoValue → String
  | .str s => s
  | .int32V n => toString n
  | .int64V n => toString n
  | .float32V r => r
  | .float64V r => r
  | _ => ""

/-- The numeric scalar shapes of the third switch case of getSaramaEncoder:
int32, int64, float32, float64. -/
def isNumericScalar : GoValue → Bool
  | .int32V _ => true
  | .int64V _ => true
  | .float32V _ => true
  | .float64V _ => true
  | _ => false

/-- Shapes that reach the default branch of the type switch with a reflect
Kind other than Struct: function values and every other unsupported kind. -/
def unsupportedShape : GoValue → Bool
  | .funcV _ => true
  | .otherV _ => true
  | _ => false

/-- A sarama.Encoder value as built by getSaramaEncoder.  byteEncoder and
structEncoder record the topic tag and the codec identity that the source
passes into newSaramaByteEncoder and newSaramaStructEncoder (both declared
outside src; per the spec they wrap the payload via the codec, tagged with
the topic name). -/
inductive SaramaEncoder where
  | stringEncoder (s : String)
  | byteEncoder (topic : String) (data : List Nat) (codecId : Nat)
  | structEncoder (topic : String) (sid : String) (codecId : Nat)
deriving DecidableEq

/-- The named return values of getSaramaEncoder, plus an instrumentation flag
recording whether the codec was handed to an encoder constructor. -/
structure EncoderResult where
  s : Option SaramaEncoder
  e : Option GoErr
  codecInvoked : Bool
deriving DecidableEq

/-- getSaramaEncoder (producer, lines 461 to 494).  If the codec of the topic
config is nil the source logs errCodecNil and returns — without assigning the
named error return, so both named returns keep their zero values (nil, nil).
Otherwise it dispatches on the dynamic shape of the payload: string passes
through as a StringEncoder; a byte slice goes to the byte encoder with the
topic name and codec; the four numeric scalar types are stringified with
fmt.Sprint, bypassing the codec; a struct goes to the struct encoder with the
topic name and codec; anything else yields errMessageType. -/
def getSaramaEncoder (topicConf : TopicConfig) (msg : GoValue) :
    EncoderResult :=
  match topicConf.messageCodec with
  | none => { s := none, e := none, codecInvoked := false }
  | some codec =>
    match msg with
    | .str t =>
      { s := some (.stringEncoder t), e := none, codecInvoked := false }
    | .bytes b =>
      { s := some (.byteEncoder topicConf.Name b codec.cid)
        e := none
        codecInvoked := true }
    | .int32V n =>
      { s := some (.stringEncoder (goSprint (.int32V n)))
        e := none
        codecInvoked := false }
    | .int64V n =>
      { s := some (.stringEncoder (goSprint (.int64V n)))
        e := none
        codecInvoked := false }
    | .float32V r =>
      { s := some (.stringEncoder (goSprint (.float32V r)))
        e := none
        codecInvoked := false }
    | .float64V r =>
      { s := some (.stringEncoder (goSprint (.float64V r)))
        e := none
        codecInvoked := false }
    | .structV sid =>
      { s := some (.structEncoder topicConf.Name sid codec.cid)
        e := none
        codecInvoked := true }
    | .funcV _ =>
      { s := none, e := some errMessageType, codecInvoked := false }
    | .otherV _ =>
      { s := none, e := some errMessageType, codecInvoked := false }

/-- The dynamic type of the producer field (an interface value in Go): a
sarama.SyncProducer, a sarama.AsyncProducer, or anything else (the default
branch of type switches on it). -/
inductive ProducerVal where
  | syncP
  | asyncP
  | nilP
deriving DecidableEq

/-- A sarama.ProducerMessage as built by produceMessage: topic, key, and the
value encoder.  The value is an Option because the encoder result can be nil
(see getSaramaEncoder on a nil codec). -/
structure ProducerMessage where
  topic : String
  key : String
  value : Option SaramaEncoder
deriving DecidableEq

/-- The observable effects of produceMessage: the returned error, the
messages passed to the sync SendMessage call, and the messages enqueued on
the async input channel. -/
structure ProduceEffects where
  e : Option GoErr
  syncSends : List ProducerMessage
  asyncSends : List ProducerMessage
deriving DecidableEq

/-- produceMessage (producer, lines 415 to 445).  The topic config is looked
up in the registry (zero value when absent) and handed to getSaramaEncoder;
on an encoder error the function logs and returns it without touching the
broker.  Otherwise a ProducerMessage is built and dispatched on the dynamic
producer type: a sync producer gets a SendMessage call whose error result
(sendErr, an external effect) is returned; an async producer gets the message
on its input channel and no error; any other value yields errInvalidProducer. -/
def produceMessage (producer : ProducerVal)
    (topicConf : List (String × TopicConfig)) (topic key : String)
    (msg : GoValue) (sendErr : Option GoErr) : ProduceEffects :=
  let enc := getSaramaEncoder (lookupTopicConfig topicConf topic) msg
  match enc.e with
  | some err => { e := some err, syncSends := [], asyncSends := [] }
  | none =>
    let m : ProducerMessage := { topic := topic, key := key, value := enc.s }
    match producer with
    | .syncP => { e := sendErr, syncSends := [m], asyncSends := [] }
    | .asyncP => { e := none, syncSends := [], asyncSends := [m] }
    | .nilP =>
      { e := some errInvalidProducer, syncSends := [], asyncSends := [] }

/-- The producer mode requested at construction (producerType in the source,
declared outside src: sync, async, or an invalid value reaching the default
branch). -/
inductive ProducerType where
  | sync
  | async
  | invalid
deriving DecidableEq

/-- The state of a saramaProducer after newSaramaProducer, plus whether the
background handleAsyncResponses goroutine was started. -/
structure NewProducerResult where
  producer : ProducerVal
  e : Option GoErr
  handlerStarted : Bool
  initFlag : Bool
deriving DecidableEq

/-- newSaramaProducer (producer, lines 385 to 413).  ctorErr is the error of
the underlying sarama constructor (an external effect).  On any error the
function logs and returns before starting the response handler.  On success
it starts handleAsyncResponses in a goroutine — unconditionally, for the sync
mode as well — and marks the producer initialized. -/
def newSaramaProducer (prodType : ProducerType) (ctorErr : Option GoErr) :
    NewProducerResult :=
  let pe : ProducerVal × Option GoErr :=
    match prodType with
    | .sync =>
      match ctorErr with
      | none => (.syncP, none)
      | some er => (.nilP, some er)
    | .async =>
      match ctorErr with
      | none => (.asyncP, none)
      | some er => (.nilP, some er)
    | .invalid => (.nilP, some errInvalidProducer)
  match pe.2 with
  | some er =>
    { producer := pe.1, e := some er, handlerStarted := false, initFlag := false }
  | none =>
    { producer := pe.1, e := none, handlerStarted := true, initFlag := true }

/-- How the first step of handleAsyncResponses goes: entering the select
evaluates both channel expressions, each of which type-asserts the producer
to sarama.AsyncProducer without the comma-ok form; for a non-async producer
value that assertion panics, otherwise the loop blocks awaiting responses. -/
inductive HandlerStep where
  | assertionPanic
  | awaitingResponses
deriving DecidableEq

/-- The first step of handleAsyncResponses (producer, lines 447 to 459),
determined by the dynamic type of the producer field. -/
def handleAsyncResponsesStep (producer : ProducerVal) : HandlerStep :=
  match producer with
  | .asyncP => .awaitingResponses
  | _ => .assertionPanic

/-- Events of one generation of the kafka-go coordinator, for a single topic
with a single assigned partition: consumeTopic starts the partition loop via
gen.Start (line 106; gen.Start launches the loop in a goroutine and returns),
consumeTopic returns and its deferred consumerWait.Done fires (line 93),
consumerWait.Wait in startConsume returns (line 87), startConsume requests
the next generation via group.Next (line 75), and the partition loop
goroutine exits (line 120, on read error). -/
inductive GEvent where
  | loopStarted
  | spawnerDone
  | waitReturned
  | nextGenRequested
  | loopExited
deriving DecidableEq, BEq

/-- All events of the single-topic single-partition generation instance. -/
def allGEvents : List GEvent :=
  [.loopStarted, .spawnerDone, .waitReturned, .nextGenRequested, .loopExited]

/-- Index of the first occurrence of an event in a schedule (length if
absent). -/
def idxOf (s : List GEvent) (a : GEvent) : Nat :=
  s.findIdx (fun x => x == a)

/-- Event a occurs strictly before event b in the schedule. -/
def eventBefore (s : List GEvent) (a b : GEvent) : Bool :=
  idxOf s a < idxOf s b

/-- A schedule (interleaving) of the generation instance is valid when every
event occurs exactly once and the orderings forced by the source hold:
consumeTopic starts the loop before its deferred Done fires; Wait returns
only after the Done; startConsume requests the next generation only after
Wait returns; and the loop can exit only after being started.  There is no
ordering between spawnerDone and loopExited: gen.Start launches the loop in a
separate goroutine and consumeTopic does not wait for it. -/
def validSchedule (s : List GEvent) : Bool :=
  allGEvents.all (fun x => s.count x == 1)
  && eventBefore s .loopStarted .spawnerDone
  && eventBefore s .spawnerDone .waitReturned
  && eventBefore s .waitReturned .nextGenRequested
  && eventBefore s .loopStarted .loopExited

/-- A schedule in which the next generation is requested while the partition
loop is still running. -/
def earlyNextGenSchedule : List GEvent :=
  [.loopStarted, .spawnerDone, .waitReturned, .nextGenRequested, .loopExited]

/-- A processor error used by concrete scenarios. -/
def procErr : GoErr := ⟨"processing failed"⟩

/-- A message processor that always fails. -/
def failProc : ConsumerMessage → Option GoErr := fun _ => some procErr

/-- A message processor that always succeeds. -/
def okProc : ConsumerMessage → Option GoErr := fun _ => none

/-- The configured orders topic of the spec scenario: codec present, failing
processor, dead-letter topic orders-failed. -/
def ordersConf : TopicConfig :=
  { Name := "orders"
    messageCodec := some ⟨1⟩
    MessageProcessor := some failProc
    FailedProcessingTopic := "orders-failed" }

/-- An orders topic config whose processor succeeds and which has no
dead-letter topic. -/
def okConf : TopicConfig :=
  { Name := "orders"
    messageCodec := some ⟨1⟩
    MessageProcessor := some okProc
    FailedProcessingTopic := "" }

/-- A topic config with no message codec. -/
def noCodecConf : TopicConfig :=
  { Name := "t"
    messageCodec := none
    MessageProcessor := none
    FailedProcessingTopic := "" }

/-- The record of the spec scenario: topic orders, partition 0, offset 42. -/
def msg42 : KMessage :=
  { topic := "orders", partition := 0, offset := 42, key := [], value := [7] }

/-- C1: the claim says that on a processing failure at offset o the loop
resets the read position, commits o-1, and does not commit o, leaving the
committed offset regressed at o-1.  At the spec scenario (orders, offset 42,
dead-letter configured) the code does reset the reader to 42 and commit 41,
but the failure branch then falls through to the commit the source annotates
as the successful-processing commit, so offset 42 is also committed in the
same iteration.  This theorem evaluates the loop step at that failing input
and exhibits the commit sequence 41 then 42. -/
theorem consumeTopic_failure_also_commits_failed_offset :
    consumeTopicStep ordersConf "orders" 0 msg42 true =
      { outcome := .continued
        chanOps := [ChanOp.trySend
          (newFailedMessage (newKafkaGoMessage msg42 (some ⟨1⟩))
            "orders-failed" procErr) true]
        setOffsetCalls := [42]
        commits := [("orders", 0, 41), ("orders", 0, 42)]
        processedMsg := some (newKafkaGoMessage msg42 (some ⟨1⟩)) } := by
  rfl

/-- C2: the claim says produceMessage on a topic whose config has no codec
returns a non-nil error before any encoding and sends nothing to the broker.
In the code getSaramaEncoder logs errCodecNil but returns without assigning
the named error return, so produceMessage sees a nil error and proceeds: at
this input a message with a nil value encoder is handed to the sync
SendMessage call and the returned error is nil. -/
theorem produceMessage_nil_codec_sends_nil_value :
    produceMessage .syncP [("t", noCodecConf)] "t" "k" (.str "x") none =
      { e := none
        syncSends := [{ topic := "t", key := "k", value := none }]
        asyncSends := [] } := by
  rfl

/-- C3: commitOffset attempts the commit once; exactly one immediate retry
happens if and only if the first attempt fails; the call always returns
normally, never propagating an error (a double failure is only logged), and
after a successful attempt no further attempt is made. -/
theorem commitOffset_retries_exactly_once (a : Nat → Option GoErr) :
    (commitOffset a).2 = .returnedNormally
      ∧ (commitOffset a).1 = (if a 0 = none then 1 else 2) := by
  unfold commitOffset
  cases h : a 0 with
  | none => simp [h]
  | some er =>
    cases h1 : a 1 with
    | none => simp [h]
    | some er1 => simp [h]

/-- C3 witness: with a first attempt that succeeds, one attempt is made and
the call returns normally. -/
theorem commitOffset_retries_exactly_once_witness :
    (commitOffset (fun _ => none)).2 = .returnedNormally
      ∧ (commitOffset (fun _ => none)).1 = 1 := by
  have h := commitOffset_retries_exactly_once (fun _ => none)
  simpa using h

/-- C4: for every numeric scalar payload, getSaramaEncoder returns a string
encoder holding the fmt.Sprint rendering of the payload — decimal for the
integer scalars, by definition of goSprint — and the codec of the topic is
never invoked. -/
theorem getSaramaEncoder_numeric_stringifies (conf : TopicConfig) (c : Codec)
    (hc : conf.messageCodec = some c) (v : GoValue)
    (hv : isNumericScalar v = true) :
    getSaramaEncoder conf v =
      { s := some (.stringEncoder (goSprint v))
        e := none
        codecInvoked := false } := by
  cases v <;> simp [isNumericScalar] at hv <;> simp [getSaramaEncoder, hc]

/-- C4 witness: the payload int64 7 encodes to the string 7, with no error
and no codec invocation. -/
theorem getSaramaEncoder_numeric_stringifies_witness :
    ordersConf.messageCodec = some ⟨1⟩
      ∧ isNumericScalar (GoValue.int64V 7) = true
      ∧ getSaramaEncoder ordersConf (GoValue.int64V 7) =
          { s := some (.stringEncoder "7"), e := none, codecInvoked := false } := by
  refine ⟨rfl, rfl, ?_⟩
  rw [getSaramaEncoder_numeric_stringifies ordersConf ⟨1⟩ rfl
    (GoValue.int64V 7) rfl]
  decide

/-- C5: for every payload shape that is not text, raw bytes, a supported
numeric scalar, or a struct (function values and all other kinds), and for a
topic whose config has a codec, produceMessage fails with the unsupported
message type error and neither the sync send path nor the async enqueue path
receives a message, whatever the producer mode. -/
theorem produceMessage_unsupported_type_no_send (prod : ProducerVal)
    (tc : List (String × TopicConfig)) (topic key : String) (c : Codec)
    (hc : (lookupTopicConfig tc topic).messageCodec = some c)
    (v : GoValue) (hv : unsupportedShape v = true) (sendErr : Option GoErr) :
    produceMessage prod tc topic key v sendErr =
      { e := some errMessageType, syncSends := [], asyncSends := [] } := by
  cases v <;> simp [unsupportedShape] at hv <;>
    simp [produceMessage, getSaramaEncoder, hc]

/-- C5 witness: a function payload on the configured orders topic yields the
unsupported message type error and no broker call in sync mode. -/
theorem produceMessage_unsupported_type_no_send_witness :
    (lookupTopicConfig [("orders", ordersConf)] "orders").messageCodec = some ⟨1⟩
      ∧ unsupportedShape (GoValue.funcV "f") = true
      ∧ produceMessage .syncP [("orders", ordersConf)] "orders" "k"
          (GoValue.funcV "f") none =
          { e := some errMessageType, syncSends := [], asyncSends := [] } :=
  ⟨rfl, rfl,
    produceMessage_unsupported_type_no_send .syncP [("orders", ordersConf)]
      "orders" "k" ⟨1⟩ rfl (GoValue.funcV "f") rfl none⟩

/-- C6: on a processing failure for a topic with a configured
failed-processing topic, both backends perform exactly one non-blocking send
of the FailedMessage to the shared channel: the channel operation list of the
iteration is the singleton trySend, the message is delivered exactly once
when the channel accepts it immediately and dropped otherwise, no blocking
send ever occurs, and both loops continue. -/
theorem failed_forwarding_single_trySend
    (conf : TopicConfig) (c : Codec) (proc : ConsumerMessage → Option GoErr)
    (err : GoErr) (tcf : String → TopicConfig) (msg : KMessage)
    (accepts : Bool) (topic : String) (partition : Int)
    (hname : conf.Name ≠ "")
    (hc : conf.messageCodec = some c)
    (hp : conf.MessageProcessor = some proc)
    (hdl : conf.FailedProcessingTopic ≠ "")
    (htc : tcf msg.topic = conf)
    (hfail : proc (newKafkaGoMessage msg conf.messageCodec) = some err) :
    (consumeTopicStep conf topic partition msg accepts).chanOps =
        [ChanOp.trySend
          (newFailedMessage (newKafkaGoMessage msg conf.messageCodec)
            conf.FailedProcessingTopic err) accepts]
      ∧ (ConsumeClaimStep tcf msg accepts).chanOps =
        [ChanOp.trySend
          (newFailedMessage (newKafkaGoMessage msg conf.messageCodec)
            conf.FailedProcessingTopic err) accepts]
      ∧ deliveredMessages
          [ChanOp.trySend
            (newFailedMessage (newKafkaGoMessage msg conf.messageCodec)
              conf.FailedProcessingTopic err) accepts] =
          (if accepts then
            [newFailedMessage (newKafkaGoMessage msg conf.messageCodec)
              conf.FailedProcessingTopic err]
          else [])
      ∧ hasBlockingSend
          [ChanOp.trySend
            (newFailedMessage (newKafkaGoMessage msg conf.messageCodec)
              conf.FailedProcessingTopic err) accepts] = false
      ∧ (consumeTopicStep conf topic partition msg accepts).outcome = .continued
      ∧ (ConsumeClaimStep tcf msg accepts).control = .continued := by
  have hfail2 : proc ⟨msg, some c⟩ = some err := by
    rw [← hc]
    exact hfail
  refine ⟨?_, ?_, ?_, ?_, ?_, ?_⟩
  · simp [consumeTopicStep, hp, hfail, hdl]
  · simp [ConsumeClaimStep, htc, hname, hc, hp, hfail2, hdl,
      newSaramaMessage, newKafkaGoMessage]
  · cases accepts <;> simp [deliveredMessages]
  · simp [hasBlockingSend]
  · simp [consumeTopicStep, hp, hfail]
  · simp [ConsumeClaimStep, htc, hname, hc, hp, hfail2, newSaramaMessage]

/-- C6 witness: the spec scenario (orders at offset 42, dead-letter topic
orders-failed, channel accepting) gives exactly one trySend in both backends,
one delivery, no blocking send, and both loops continue. -/
theorem failed_forwarding_single_trySend_witness :
    ordersConf.Name ≠ ""
      ∧ ordersConf.messageCodec = some ⟨1⟩
      ∧ ordersConf.MessageProcessor = some failProc
      ∧ ordersConf.FailedProcessingTopic ≠ ""
      ∧ lookupTopicConfig [("orders", ordersConf)] msg42.topic = ordersConf
      ∧ failProc (newKafkaGoMessage msg42 ordersConf.messageCodec) = some procErr
      ∧ (consumeTopicStep ordersConf "orders" 0 msg42 true).chanOps =
          [ChanOp.trySend
            (newFailedMessage (newKafkaGoMessage msg42 ordersConf.messageCodec)
              ordersConf.FailedProcessingTopic procErr) true]
      ∧ (ConsumeClaimStep (lookupTopicConfig [("orders", ordersConf)])
            msg42 true).chanOps =
          [ChanOp.trySend
            (newFailedMessage (newKafkaGoMessage msg42 ordersConf.messageCodec)
              ordersConf.FailedProcessingTopic procErr) true] := by
  have h := failed_forwarding_single_trySend ordersConf ⟨1⟩ failProc procErr
    (lookupTopicConfig [("orders", ordersConf)]) msg42 true "orders" 0
    (by decide) rfl rfl (by decide) rfl rfl
  exact ⟨by decide, rfl, rfl, by decide, rfl, rfl, h.1, h.2.1⟩

/-- C7: in the session-based backend, a claimed message on a configured topic
is acknowledged via MarkMessage exactly when the processor invocation returns
no error, and the claim loop continues rather than returning in either case
(in particular on a processor error the message is not marked). -/
theorem consumeClaim_marks_iff_success
    (tcf : String → TopicConfig) (msg : KMessage) (accepts : Bool)
    (c : Codec) (proc : ConsumerMessage → Option GoErr)
    (hname : (tcf msg.topic).Name ≠ "")
    (hc : (tcf msg.topic).messageCodec = some c)
    (hp : (tcf msg.topic).MessageProcessor = some proc) :
    ((ConsumeClaimStep tcf msg accepts).marked = true
        ↔ proc (newSaramaMessage msg (tcf msg.topic).messageCodec) = none)
      ∧ (ConsumeClaimStep tcf msg accepts).control = .continued := by
  simp only [hc]
  cases hres : proc (newSaramaMessage msg (some c)) with
  | none =>
    constructor
    · simp [ConsumeClaimStep, hname, hc, hp, hres]
    · simp [ConsumeClaimStep, hname, hc, hp, hres]
  | some er =>
    constructor
    · simp [ConsumeClaimStep, hname, hc, hp, hres]
    · by_cases hfp : (tcf msg.topic).FailedProcessingTopic = "" <;>
        simp [ConsumeClaimStep, hname, hc, hp, hres, hfp]

/-- C7 witness: on the configured orders topic with an always-succeeding
processor, the claimed message at offset 42 is marked and the loop continues. -/
theorem consumeClaim_marks_iff_success_witness :
    (lookupTopicConfig [("orders", okConf)] msg42.topic).Name ≠ ""
      ∧ (lookupTopicConfig [("orders", okConf)] msg42.topic).messageCodec = some ⟨1⟩
      ∧ (lookupTopicConfig [("orders", okConf)] msg42.topic).MessageProcessor
          = some okProc
      ∧ (ConsumeClaimStep (lookupTopicConfig [("orders", okConf)])
          msg42 true).marked = true
      ∧ (ConsumeClaimStep (lookupTopicConfig [("orders", okConf)])
          msg42 true).control = .continued := by
  have h := consumeClaim_marks_iff_success
    (lookupTopicConfig [("orders", okConf)]) msg42 true ⟨1⟩ okProc
    (by decide) rfl rfl
  exact ⟨by decide, rfl, rfl, h.1.mpr rfl, h.2⟩

/-- C8 counterexample: the claim says every message on a topic with no
populated TopicConfig is treated as a hard error rather than decoded and
processed, in both backends.  In the generation-based backend consumeTopic
performs no configuration check: the map lookup yields the zero-value config
and the loop proceeds straight to invoking its nil MessageProcessor, so at
this concrete input the iteration panics instead of producing a handled
error. -/
theorem unconfigured_topic_kafkago_panics :
    (consumeTopicStep (lookupTopicConfig [] "orders") "orders" 0 msg42
        true).outcome = .panicked
      ∧ (consumeTopicStep (lookupTopicConfig [] "orders") "orders" 0 msg42
        true).processedMsg = none := by
  exact ⟨rfl, rfl⟩

/-- C8 amended: in the session-based backend a message whose topic config is
unpopulated (empty Name or nil codec) yields errTopicConfMissing and is
skipped without building, decoding or processing the message and without
acknowledgment; the generation-based backend performs no such check, and with
the fully-unpopulated zero-value config it invokes the nil processor, which
panics the partition loop goroutine. -/
theorem unconfigured_topic_both_backends
    (tcf : String → TopicConfig) (msg : KMessage) (accepts : Bool)
    (topic : String) (partition : Int)
    (h : (tcf msg.topic).Name = "" ∨ (tcf msg.topic).messageCodec = none) :
    ConsumeClaimStep tcf msg accepts =
      { control := .continued
        e := some errTopicConfMissing
        marked := false
        chanOps := []
        processedMsg := none }
      ∧ ((tcf msg.topic).MessageProcessor = none →
          (consumeTopicStep (tcf msg.topic) topic partition msg
            accepts).outcome = .panicked) := by
  constructor
  · simp only [ConsumeClaimStep]
    rw [if_pos h]
  · intro hp
    simp [consumeTopicStep, hp]

/-- C8 amended witness: with an empty registry, the claimed message is
rejected with errTopicConfMissing by the session backend and the generation
backend iteration panics. -/
theorem unconfigured_topic_both_backends_witness :
    ((lookupTopicConfig [] msg42.topic).Name = ""
        ∨ (lookupTopicConfig [] msg42.topic).messageCodec = none)
      ∧ ConsumeClaimStep (lookupTopicConfig []) msg42 true =
          { control := .continued
            e := some errTopicConfMissing
            marked := false
            chanOps := []
            processedMsg := none }
      ∧ (consumeTopicStep (lookupTopicConfig [] msg42.topic) "orders" 0 msg42
          true).outcome = .panicked := by
  have h := unconfigured_topic_both_backends (lookupTopicConfig []) msg42 true
    "orders" 0 (Or.inl rfl)
  exact ⟨Or.inl rfl, h.1, h.2 rfl⟩

/-- C9 counterexample: the claim says startConsume blocks until all partition
message loops of the generation have exited before requesting the next
generation.  The wait-group counts the consumeTopic spawner goroutines, whose
deferred Done fires as soon as the partition loops have been started (gen.Start
launches them asynchronously), so a valid interleaving exists in which the
next generation is requested while the partition loop is still running. -/
theorem startConsume_next_gen_before_loop_exit :
    validSchedule earlyNextGenSchedule = true
      ∧ eventBefore earlyNextGenSchedule .loopExited .nextGenRequested = false := by
  decide

/-- C9 amended: before requesting the next generation, startConsume waits
(via the wait-group) until every consumeTopic spawner goroutine has returned,
and hence until every partition message loop has been started; it does not
wait for the partition loops themselves to exit. -/
theorem startConsume_waits_for_spawners (s : List GEvent)
    (h : validSchedule s = true) :
    eventBefore s .loopStarted .nextGenRequested = true
      ∧ eventBefore s .spawnerDone .nextGenRequested = true := by
  unfold validSchedule at h
  simp only [Bool.and_eq_true] at h
  obtain ⟨⟨⟨⟨-, h1⟩, h2⟩, h3⟩, -⟩ := h
  unfold eventBefore at h1 h2 h3 ⊢
  simp only [decide_eq_true_eq] at h1 h2 h3 ⊢
  omega

/-- C9 amended witness: the concrete valid schedule satisfies the amended
ordering guarantees. -/
theorem startConsume_waits_for_spawners_witness :
    validSchedule earlyNextGenSchedule = true
      ∧ eventBefore earlyNextGenSchedule .loopStarted .nextGenRequested = true
      ∧ eventBefore earlyNextGenSchedule .spawnerDone .nextGenRequested = true := by
  have h := startConsume_waits_for_spawners earlyNextGenSchedule (by decide)
  exact ⟨by decide, h.1, h.2⟩

/-- C10: every successfully constructed synchronous producer still starts the
background handleAsyncResponses goroutine, and the first step of that loop
type-asserts the producer to the async producer type, which fails for the
sync producer value: the assertion panic branch is reached. -/
theorem syncProducer_async_handler_panics (ctorErr : Option GoErr)
    (h : (newSaramaProducer .sync ctorErr).e = none) :
    (newSaramaProducer .sync ctorErr).handlerStarted = true
      ∧ handleAsyncResponsesStep (newSaramaProducer .sync ctorErr).producer
          = .assertionPanic := by
  cases ctorErr with
  | none => exact ⟨rfl, rfl⟩
  | some er => simp [newSaramaProducer] at h

/-- C10 witness: a sync producer whose sarama constructor succeeds starts the
handler, and the handler panics on its failed type assertion. -/
theorem syncProducer_async_handler_panics_witness :
    (newSaramaProducer .sync none).e = none
      ∧ (newSaramaProducer .sync none).handlerStarted = true
      ∧ handleAsyncResponsesStep (newSaramaProducer .sync none).producer
          = .assertionPanic := by
  have h := syncProducer_async_handler_panics none rfl
  exact ⟨rfl, h.1, h.2⟩

end Kafkaclient
